import Mathlib

/-!
Shallow embedding of the jradiance storefront core: the client cart store
(src/hooks/useCart.ts), the cart-validation endpoint
(app/api/validate-cart-total/route.ts), the checkout orchestrator
(app/api/process-checkout/route.ts), the checkout page submission handler
(app/checkout/page.tsx) and the image-upload endpoint
(app/api/upload-image/route.ts).

Prices and totals are modelled as rationals; JS numeric quantities as
integers.  External calls (the Paystack verification, the Supabase admin
operations) are modelled by passing their outcomes in explicitly as an
environment record, and the database as an explicit state record threaded
through the handler.
-/

namespace JRadiance

/-! ## Data model -/

/-- A cart item as held by the client cart store (interface CartItem in
useCart.ts): productId, name, price snapshot, quantity. -/
structure CartItem where
  productId : String
  name : String
  price : ℚ
  quantity : ℤ
deriving DecidableEq, Repr

/-- The fields of a product row that the cart and validation code read
(id, name, price, is_active, is_deleted). -/
structure ProductRow where
  id : String
  name : String
  price : ℚ
  is_active : Bool
  is_deleted : Bool
deriving DecidableEq, Repr

/-- The projection of a product passed to addToCart
(Pick of id, name, price in useCart.ts). -/
structure ProductInfo where
  id : String
  name : String
  price : ℚ
deriving DecidableEq, Repr

/-! ## Cart store (useCart.ts) -/

/-- addToCart: if the product is already present, increment its quantity by
one; otherwise append it with quantity 1, snapshotting the price. -/
def addToCart (cart : List CartItem) (product : ProductInfo) : List CartItem :=
  match cart.find? (fun item => item.productId = product.id) with
  | some _ =>
      cart.map (fun item =>
        if item.productId = product.id then
          { item with quantity := item.quantity + 1 }
        else item)
  | none =>
      cart ++ [{ productId := product.id, name := product.name,
                 price := product.price, quantity := 1 }]

/-- removeFromCart: drop the item with the given productId. -/
def removeFromCart (cart : List CartItem) (productId : String) : List CartItem :=
  cart.filter (fun item => item.productId ≠ productId)

/-- updateQuantity: a quantity below 1 removes the item, otherwise the
stored quantity is replaced. -/
def updateQuantity (cart : List CartItem) (productId : String) (quantity : ℤ) :
    List CartItem :=
  if quantity < 1 then removeFromCart cart productId
  else
    cart.map (fun item =>
      if item.productId = productId then { item with quantity := quantity }
      else item)

/-- totalOrder: the reduce over the cart in useCart.ts,
sum + item.price * item.quantity starting from 0. -/
def totalOrder (cart : List CartItem) : ℚ :=
  cart.foldl (fun sum item => sum + item.price * (item.quantity : ℚ)) 0

/-- The specification-side total: the sum of price times quantity over the
items of the cart, written as a map-then-sum rather than the code's fold. -/
def specTotal (cart : List CartItem) : ℚ :=
  (cart.map (fun item => item.price * (item.quantity : ℚ))).sum

/-- One user-visible cart operation. -/
inductive CartOp where
  | add (product : ProductInfo)
  | remove (productId : String)
  | setQuantity (productId : String) (quantity : ℤ)
deriving DecidableEq, Repr

/-- Apply one cart operation. -/
def applyOp (cart : List CartItem) (op : CartOp) : List CartItem :=
  match op with
  | .add product => addToCart cart product
  | .remove productId => removeFromCart cart productId
  | .setQuantity productId quantity => updateQuantity cart productId quantity

/-- Apply a finite sequence of cart operations in order. -/
def applyOps (ops : List CartOp) (cart : List CartItem) : List CartItem :=
  ops.foldl applyOp cart

/-! ## Cart persistence (the two useEffect hooks in useCart.ts and the
localStorage.removeItem call in checkout/page.tsx) -/

/-- The persistence effect: the serialized cart is written to the storage
key only when the cart is non-empty (cart.length > 0); otherwise the key
keeps its previous value. -/
def persistEffect (cart : List CartItem) (storage : Option (List CartItem)) :
    Option (List CartItem) :=
  if cart.length > 0 then some cart else storage

/-- A browser session: the in-memory cart state together with the value
held (if any) under the durable local-storage key. -/
structure CartSession where
  cart : List CartItem
  storage : Option (List CartItem)
deriving DecidableEq, Repr

/-- One cart mutation followed by the persistence effect that reacts to the
cart state change. -/
def stepSession (s : CartSession) (op : CartOp) : CartSession :=
  let cart := applyOp s.cart op
  { cart := cart, storage := persistEffect cart s.storage }

/-- Mount-time initialization: the cart is loaded from the storage key when
one is present, then the persistence effect runs on the loaded cart. -/
def initSession (storage : Option (List CartItem)) : CartSession :=
  let cart := storage.getD []
  { cart := cart, storage := persistEffect cart storage }

/-- The successful-checkout path removes the storage key
(localStorage.removeItem in checkout/page.tsx). -/
def clearCartStorage (s : CartSession) : CartSession :=
  { s with storage := none }

/-! ## Cart-validation endpoint (app/api/validate-cart-total/route.ts) -/

/-- One cart entry as read by the validation endpoint: productId and
quantity. -/
structure CartEntry where
  productId : String
  quantity : ℤ
deriving DecidableEq, Repr

/-- The projection the checkout page applies when posting the cart to the
validation endpoint (the route reads only productId and quantity). -/
def toEntries (cart : List CartItem) : List CartEntry :=
  cart.map (fun item => { productId := item.productId, quantity := item.quantity })

/-- Result of the validation endpoint: 200 with validatedTotal, or 400 with
an error string. (The 500 fetch-failure path is not reached in this model:
the database read is passed in as an already-fetched product list.) -/
inductive ValidateResult where
  | ok (validatedTotal : ℚ)
  | badRequest (error : String)
deriving DecidableEq, Repr

/-- The database query of the endpoint: products whose id is among the
requested ids, restricted to active, non-deleted rows. -/
def dbQueryActive (products : List ProductRow) (productIds : List String) :
    List ProductRow :=
  products.filter (fun p => productIds.contains p.id && p.is_active && !p.is_deleted)

/-- The per-item loop of the endpoint: accumulate price times quantity for
each entry found among the fetched products, and return 400 naming the id
of the first entry that is not found. -/
def validateLoop (typedProducts : List ProductRow) (entries : List CartEntry)
    (validatedTotal : ℚ) : ValidateResult :=
  match entries with
  | [] => .ok validatedTotal
  | item :: rest =>
      match typedProducts.find? (fun p => p.id = item.productId) with
      | some dbProduct =>
          validateLoop typedProducts rest
            (validatedTotal + dbProduct.price * (item.quantity : ℚ))
      | none => .badRequest ("Product " ++ item.productId ++ " not found")

/-- The POST handler of the validation endpoint: fetch the active,
non-deleted products named by the cart, then recompute the total
server-side. -/
def validateCartTotal (products : List ProductRow) (cart : List CartEntry) :
    ValidateResult :=
  let productIds := cart.map (fun item => item.productId)
  let typedProducts := dbQueryActive products productIds
  validateLoop typedProducts cart 0

/-- The price the endpoint uses for an entry: the price of the first
fetched product row with the entry's id (0 when absent, a case the handler
never sums). -/
def lookupPrice (typedProducts : List ProductRow) (entry : CartEntry) : ℚ :=
  match typedProducts.find? (fun p => p.id = entry.productId) with
  | some p => p.price
  | none => 0

/-! ## Checkout orchestrator (app/api/process-checkout/route.ts) -/

/-- The customer details submitted with the checkout form. -/
structure CheckoutForm where
  email : String
  name : String
  phone : String
  address : String
deriving DecidableEq, Repr

/-- The JSON body of a checkout request: cart, form, payment_ref, total. -/
structure CheckoutRequest where
  cart : List CartItem
  form : CheckoutForm
  payment_ref : String
  total : ℚ
deriving DecidableEq, Repr

/-- The part of the Paystack verification response the handler reads:
the top-level status flag and data.status. -/
structure PaystackVerifyResponse where
  status : Bool
  data_status : String
deriving DecidableEq, Repr

/-- An auth account as far as the handler reads it: id and email. -/
structure AuthUser where
  id : String
  email : String
deriving DecidableEq, Repr

/-- A profiles row as inserted by the handler. -/
structure ProfileRow where
  id : String
  email : String
  name : String
  phone : String
  role : String
deriving DecidableEq, Repr

/-- The address JSON stored on an order: detail and phone. -/
structure OrderAddress where
  detail : String
  phone : String
deriving DecidableEq, Repr

/-- An orders row as inserted by the handler. -/
structure OrderRow where
  user_id : String
  payment_ref : String
  total_amount : ℚ
  items : List CartItem
  status : String
  address : OrderAddress
deriving DecidableEq, Repr

/-- The persistent state the handler can touch: auth users, profiles rows,
orders rows. -/
structure DBState where
  users : List AuthUser
  profiles : List ProfileRow
  orders : List OrderRow
deriving DecidableEq, Repr

/-- Outcomes of the external calls the handler makes, passed in as an
environment: the Paystack verification response, and for each Supabase
admin call either none (success) or some message (the call's thrown
error message).  freshUserId is the id the auth service assigns when a new
user is created. -/
structure CheckoutEnv where
  paystack : PaystackVerifyResponse
  listUsersError : Option String
  freshUserId : String
  createUserError : Option String
  profileInsertError : Option String
  orderInsertError : Option String
deriving DecidableEq, Repr

/-- The HTTP outcome of the checkout handler: 200 success, 400 with an
error string, or 500 with the caught error's message. -/
inductive CheckoutResult where
  | ok
  | badRequest (error : String)
  | serverError (error : String)
deriving DecidableEq, Repr

/-- Step 5 of the handler: insert the orders row built from the request,
linking it to the resolved user id; a thrown insert error is caught and
returned as a 500 carrying the error's message. -/
def insertOrderStep (env : CheckoutEnv) (req : CheckoutRequest) (db : DBState)
    (userId : String) : CheckoutResult × DBState :=
  match env.orderInsertError with
  | some m => (.serverError m, db)
  | none =>
      (.ok,
       { db with
         orders := db.orders ++
           [{ user_id := userId
              payment_ref := req.payment_ref
              total_amount := req.total
              items := req.cart
              status := "pending"
              address := { detail := req.form.address, phone := req.form.phone } }] })

/-- The POST handler of process-checkout: verify payment (fail closed with
400), list users and resolve the account by email, create the auth user
and a customer profile when absent, then insert the order.  Every thrown
error is caught and surfaced as a 500 whose body carries the error's
message. -/
def processCheckout (env : CheckoutEnv) (req : CheckoutRequest) (db : DBState) :
    CheckoutResult × DBState :=
  if env.paystack.status = false ∨ env.paystack.data_status ≠ "success" then
    (.badRequest "Payment verification failed", db)
  else
    match env.listUsersError with
    | some m => (.serverError m, db)
    | none =>
        match db.users.find? (fun u => u.email = req.form.email) with
        | some targetUser => insertOrderStep env req db targetUser.id
        | none =>
            match env.createUserError with
            | some m => (.serverError m, db)
            | none =>
                let targetUser : AuthUser :=
                  { id := env.freshUserId, email := req.form.email }
                let db1 := { db with users := db.users ++ [targetUser] }
                match env.profileInsertError with
                | some m => (.serverError m, db1)
                | none =>
                    let db2 :=
                      { db1 with
                        profiles := db1.profiles ++
                          [{ id := targetUser.id
                             email := req.form.email
                             name := req.form.name
                             phone := req.form.phone
                             role := "customer" }] }
                    insertOrderStep env req db2 targetUser.id

/-! ## Checkout page submission handler (app/checkout/page.tsx) -/

/-- The trim applied to the form fields: drop whitespace characters from
both ends of the string. -/
def jsTrim (s : String) : String :=
  String.mk (((s.data.dropWhile Char.isWhitespace).reverse.dropWhile
    Char.isWhitespace).reverse)

/-- The observable outcome of handleSubmit up to the point the Paystack
popup would open: a required-fields alert, the catch-all alert raised when
the validation fetch is not ok, the cart-total-mismatch alert, or the
opening of the payment popup with the amount in kobo. -/
inductive SubmitOutcome where
  | missingFields
  | requestFailed
  | totalMismatch
  | openPaymentPopup (amountKobo : ℤ)
deriving DecidableEq, Repr

/-- handleSubmit of the checkout page: require name, email and phone after
trimming, post the cart to the validation endpoint, abort with the
mismatch alert when the server total differs from the local total by more
than 0.01, and otherwise open the Paystack popup charging
round(totalOrder * 100) kobo. -/
def handleSubmit (products : List ProductRow) (form : CheckoutForm)
    (cart : List CartItem) : SubmitOutcome :=
  if jsTrim form.name = "" ∨ jsTrim form.email = "" ∨ jsTrim form.phone = "" then
    .missingFields
  else
    match validateCartTotal products (toEntries cart) with
    | .badRequest _ => .requestFailed
    | .ok validatedTotal =>
        if |validatedTotal - totalOrder cart| > 1 / 100 then .totalMismatch
        else .openPaymentPopup (round (totalOrder cart * 100))

/-! ## Image-upload endpoint (app/api/upload-image/route.ts) -/

/-- The fields of the uploaded file the handler reads: name, MIME type,
size in bytes. -/
structure UploadedFile where
  name : String
  mimeType : String
  size : ℕ
deriving DecidableEq, Repr

/-- Outcome of the upload handler up to the FTP transfer: a 400 rejection
issued before any network call, or the attempt to transfer the file under
the generated filename (the only constructor that performs the FTP
connection). -/
inductive UploadOutcome where
  | reject400 (error : String)
  | attemptTransfer (filename : String)
deriving DecidableEq, Repr

/-- The MIME types the handler accepts. -/
def allowedTypes : List String :=
  ["image/jpeg", "image/png", "image/webp", "image/gif"]

/-- The extension part of the generated filename:
file.name.split on dot, last piece lower-cased, defaulting to jpg when
that piece is empty. -/
def fileExtension (name : String) : String :=
  match (name.splitOn ".").getLast? with
  | some ext => if ext.toLower = "" then "jpg" else ext.toLower
  | none => "jpg"

/-- The POST handler of upload-image, up to the FTP transfer: reject a
missing file, a disallowed MIME type, or a size above 5 * 1024 * 1024
bytes, each with 400 and before any network call; otherwise build the
unique filename from the timestamp and random suffix and attempt the
transfer. -/
def uploadImagePOST (file : Option UploadedFile) (timestamp : ℕ)
    (random : String) : UploadOutcome :=
  match file with
  | none => .reject400 "No file provided"
  | some f =>
      if ¬ allowedTypes.contains f.mimeType then
        .reject400 "Invalid file type. Only JPEG, PNG, WebP, and GIF are allowed"
      else if f.size > 5 * 1024 * 1024 then
        .reject400 "File size exceeds 5MB limit"
      else
        .attemptTransfer
          ("img_" ++ toString timestamp ++ "_" ++ random ++ "." ++ fileExtension f.name)

/-! ## Concrete fixtures used by witnesses and counterexamples -/

/-- A concrete active, non-deleted product priced 500. -/
def prodP1 : ProductRow :=
  { id := "p1", name := "Radiance Oil", price := 500,
    is_active := true, is_deleted := false }

/-- A concrete cart item for prodP1 with quantity 2 at the current
price. -/
def itemP1 : CartItem :=
  { productId := "p1", name := "Radiance Oil", price := 500, quantity := 2 }

/-- A concrete checkout form. -/
def formJane : CheckoutForm :=
  { email := "jane@example.com", name := "Jane", phone := "080", address := "12 Main St" }

/-- An empty database state. -/
def dbEmpty : DBState := { users := [], profiles := [], orders := [] }

/-- An environment in which every external call succeeds and the payment
verifies as success. -/
def envHappy : CheckoutEnv :=
  { paystack := { status := true, data_status := "success" },
    listUsersError := none, freshUserId := "user-1", createUserError := none,
    profileInsertError := none, orderInsertError := none }

/-- A checkout request for the cart [itemP1] whose client-supplied total, 5,
disagrees with the validated total 1000. -/
def reqTampered : CheckoutRequest :=
  { cart := [itemP1], form := formJane, payment_ref := "jr-123", total := 5 }

/-- The happy environment except that the order insert throws a database
error. -/
def envOrderFail : CheckoutEnv :=
  { envHappy with
    orderInsertError := some "duplicate key value violates unique constraint orders_pkey" }

/-- The happy environment except that the payment provider reports the
transaction as failed. -/
def envFailedPayment : CheckoutEnv :=
  { envHappy with paystack := { status := true, data_status := "failed" } }

/-- An existing auth account with the email of formJane. -/
def userJane : AuthUser := { id := "user-7", email := "jane@example.com" }

/-- A database state already holding userJane. -/
def dbExisting : DBState := { users := [userJane], profiles := [], orders := [] }

/-- A cart item for prodP1 carrying a stale price of 499 instead of the
authoritative 500. -/
def itemTampered : CartItem :=
  { productId := "p1", name := "Radiance Oil", price := 499, quantity := 2 }

/-! # Theorems

Helper lemmas first, then one theorem per claim (with its witness or
counterexample where required). -/

theorem foldl_add_eq (f : CartItem → ℚ) :
    ∀ (cart : List CartItem) (a : ℚ),
      cart.foldl (fun sum item => sum + f item) a = a + (cart.map f).sum := by
  intro cart
  induction cart with
  | nil => intro a; simp
  | cons item rest ih =>
      intro a
      simp [List.foldl, ih (a + f item), add_assoc]

theorem totalOrder_eq_specTotal (cart : List CartItem) :
    totalOrder cart = specTotal cart := by
  unfold totalOrder specTotal
  simpa using foldl_add_eq (fun item => item.price * (item.quantity : ℚ)) cart 0

theorem validateLoop_all_found (typedProducts : List ProductRow) :
    ∀ (entries : List CartEntry) (acc : ℚ),
      (∀ e ∈ entries,
        ((typedProducts.find? (fun p => p.id = e.productId)).isSome : Prop)) →
      validateLoop typedProducts entries acc =
        .ok (acc + (entries.map
          (fun e => lookupPrice typedProducts e * (e.quantity : ℚ))).sum) := by
  intro entries
  induction entries with
  | nil => intro acc _; simp [validateLoop]
  | cons item rest ih =>
      intro acc hall
      have hhead := hall item (List.mem_cons_self item rest)
      obtain ⟨p, hp⟩ := Option.isSome_iff_exists.mp hhead
      have hrest : ∀ e ∈ rest,
          ((typedProducts.find? (fun q => q.id = e.productId)).isSome : Prop) :=
        fun e he => hall e (List.mem_cons_of_mem item he)
      simp only [validateLoop, hp, ih _ hrest, List.map_cons, List.sum_cons,
        lookupPrice]
      rw [add_assoc]

theorem validateLoop_first_missing (typedProducts : List ProductRow) :
    ∀ (entries : List CartEntry) (acc : ℚ) (e : CartEntry),
      entries.find?
        (fun x => (typedProducts.find? (fun p => p.id = x.productId)).isNone) = some e →
      validateLoop typedProducts entries acc =
        .badRequest ("Product " ++ e.productId ++ " not found") := by
  intro entries
  induction entries with
  | nil => intro acc e h; simp [List.find?] at h
  | cons item rest ih =>
      intro acc e h
      rw [List.find?] at h
      cases hfind : typedProducts.find? (fun p => p.id = item.productId) with
      | none =>
          simp only [hfind, Option.isNone_none] at h
          have heq : item = e := by simpa using h
          subst heq
          simp [validateLoop, hfind]
      | some p =>
          simp only [hfind, Option.isNone_some] at h
          simp only [validateLoop, hfind]
          exact ih (acc + p.price * (item.quantity : ℚ)) e h

/-- C7: for every finite sequence of addItem, setQuantity and removeItem
calls applied to an initially empty cart, the recomputed total equals the
sum of price times quantity over the items remaining in the cart. -/
theorem C7_total_eq_sum (ops : List CartOp) :
    totalOrder (applyOps ops []) = specTotal (applyOps ops []) :=
  totalOrder_eq_specTotal (applyOps ops [])

/-- C10: the storage key is written only when the in-memory cart is
non-empty; an operation that empties the cart leaves the previously stored
value in place, so a later initialization reloads it; no cart operation
ever clears the key, which only the successful-checkout path removes. -/
theorem C10_storage_retention :
    (∀ (s : CartSession) (op : CartOp), applyOp s.cart op = [] →
      (stepSession s op).storage = s.storage) ∧
    (∀ (s : CartSession) (op : CartOp), applyOp s.cart op ≠ [] →
      (stepSession s op).storage = some (applyOp s.cart op)) ∧
    (∀ c : List CartItem, (initSession (some c)).cart = c) ∧
    (∀ (s : CartSession) (op : CartOp), s.storage ≠ none →
      (stepSession s op).storage ≠ none) ∧
    (∀ s : CartSession, (clearCartStorage s).storage = none) := by
  refine ⟨?_, ?_, ?_, ?_, ?_⟩
  · intro s op h
    simp [stepSession, persistEffect, h]
  · intro s op h
    have hpos : 0 < (applyOp s.cart op).length := List.length_pos.mpr h
    simp [stepSession, persistEffect, hpos]
  · intro c; rfl
  · intro s op h
    simp only [stepSession, persistEffect]
    split
    · simp
    · exact h
  · intro s; rfl

/-- Witness for C10: removing the sole item empties the cart yet the
storage key still holds that item. -/
theorem C10_storage_retention_witness :
    (stepSession { cart := [itemP1], storage := some [itemP1] }
      (CartOp.remove "p1")).storage = some [itemP1] := by
  have h := C10_storage_retention.1
    { cart := [itemP1], storage := some [itemP1] } (CartOp.remove "p1") (by decide)
  rw [h]

/-- C3: when every cart entry names a product among the fetched active,
non-deleted rows, the validation endpoint returns the sum of current price
times quantity; when some entry does not, the whole request fails with a
message naming the first offending productId. -/
theorem C3_validate_cart_total (products : List ProductRow) (cart : List CartEntry) :
    ((∀ e ∈ cart,
        (((dbQueryActive products (cart.map (fun x => x.productId))).find?
          (fun p => p.id = e.productId)).isSome : Prop)) →
      validateCartTotal products cart =
        .ok ((cart.map (fun e =>
          lookupPrice (dbQueryActive products (cart.map (fun x => x.productId))) e *
            (e.quantity : ℚ))).sum)) ∧
    (∀ e : CartEntry,
      cart.find? (fun x =>
        ((dbQueryActive products (cart.map (fun y => y.productId))).find?
          (fun p => p.id = x.productId)).isNone) = some e →
      validateCartTotal products cart =
        .badRequest ("Product " ++ e.productId ++ " not found")) := by
  constructor
  · intro hall
    have h := validateLoop_all_found
      (dbQueryActive products (cart.map (fun x => x.productId))) cart 0 hall
    simpa [validateCartTotal] using h
  · intro e he
    have h := validateLoop_first_missing
      (dbQueryActive products (cart.map (fun y => y.productId))) cart 0 e he
    simpa [validateCartTotal] using h

/-- Witness for C3: a cart of two units of the active product priced 500
validates to 1000. -/
theorem C3_validate_cart_total_witness :
    validateCartTotal [prodP1] [{ productId := "p1", quantity := 2 }] =
      ValidateResult.ok 1000 := by
  have h := (C3_validate_cart_total [prodP1]
    [{ productId := "p1", quantity := 2 }]).1 (by decide)
  rw [h]
  norm_num [lookupPrice, dbQueryActive, prodP1, List.find?, List.filter]

/-- C4: a checkout whose payment the provider reports as anything other
than success is rejected with the 400 verification-failed response, and
the database state (users, profiles, orders) is returned unchanged. -/
theorem C4_payment_failure_aborts (env : CheckoutEnv) (req : CheckoutRequest)
    (db : DBState) (h : env.paystack.data_status ≠ "success") :
    processCheckout env req db = (.badRequest "Payment verification failed", db) := by
  unfold processCheckout
  rw [if_pos (Or.inr h)]

/-- C5: a verified payment for an email matching no existing account
creates exactly one auth account, one customer profile and one pending
order carrying the submitted payment reference. -/
theorem C5_new_email_checkout (env : CheckoutEnv) (req : CheckoutRequest)
    (db : DBState)
    (hstat : env.paystack.status = true)
    (hds : env.paystack.data_status = "success")
    (hlist : env.listUsersError = none)
    (hfind : db.users.find? (fun u => u.email = req.form.email) = none)
    (hcreate : env.createUserError = none)
    (hprofile : env.profileInsertError = none)
    (horder : env.orderInsertError = none) :
    processCheckout env req db =
      (.ok,
       { users := db.users ++ [{ id := env.freshUserId, email := req.form.email }],
         profiles := db.profiles ++
           [{ id := env.freshUserId, email := req.form.email, name := req.form.name,
              phone := req.form.phone, role := "customer" }],
         orders := db.orders ++
           [{ user_id := env.freshUserId, payment_ref := req.payment_ref,
              total_amount := req.total, items := req.cart, status := "pending",
              address := { detail := req.form.address, phone := req.form.phone } }] }) := by
  unfold processCheckout insertOrderStep
  rw [if_neg (by simp [hstat, hds])]
  simp only [hlist, hfind, hcreate, hprofile, horder]

/-- Witness for C5: a request from a fresh email against an empty database
creates the account, the customer profile and the pending order. -/
theorem C5_new_email_checkout_witness :
    processCheckout envHappy reqTampered dbEmpty =
      (CheckoutResult.ok,
       { users := [{ id := "user-1", email := "jane@example.com" }],
         profiles := [{ id := "user-1", email := "jane@example.com", name := "Jane",
                        phone := "080", role := "customer" }],
         orders := [{ user_id := "user-1", payment_ref := "jr-123",
                      total_amount := 5, items := [itemP1], status := "pending",
                      address := { detail := "12 Main St", phone := "080" } }] }) := by
  have h := C5_new_email_checkout envHappy reqTampered dbEmpty
    (by decide) (by decide) (by decide) (by decide) (by decide) (by decide) (by decide)
  rw [h]
  decide

/-- C6: a verified payment for an email matching an existing account adds
exactly one order linked to that account's id and leaves the users and
profiles tables unchanged. -/
theorem C6_existing_email_checkout (env : CheckoutEnv) (req : CheckoutRequest)
    (db : DBState) (u : AuthUser)
    (hstat : env.paystack.status = true)
    (hds : env.paystack.data_status = "success")
    (hlist : env.listUsersError = none)
    (hfind : db.users.find? (fun x => x.email = req.form.email) = some u)
    (horder : env.orderInsertError = none) :
    processCheckout env req db =
      (.ok,
       { users := db.users, profiles := db.profiles,
         orders := db.orders ++
           [{ user_id := u.id, payment_ref := req.payment_ref,
              total_amount := req.total, items := req.cart, status := "pending",
              address := { detail := req.form.address, phone := req.form.phone } }] }) := by
  unfold processCheckout insertOrderStep
  rw [if_neg (by simp [hstat, hds])]
  simp only [hlist, hfind, horder]

/-- Witness for C6: a request from the email of an existing account adds
one order for that account and no new account or profile. -/
theorem C6_existing_email_checkout_witness :
    processCheckout envHappy reqTampered dbExisting =
      (CheckoutResult.ok,
       { users := [userJane], profiles := [],
         orders := [{ user_id := "user-7", payment_ref := "jr-123",
                      total_amount := 5, items := [itemP1], status := "pending",
                      address := { detail := "12 Main St", phone := "080" } }] }) := by
  have h := C6_existing_email_checkout envHappy reqTampered dbExisting userJane
    (by decide) (by decide) (by decide) (by decide) (by decide)
  rw [h]
  decide

/-- C1 counterexample: for the cart [itemP1] the validation endpoint prices
the order at 1000, yet a successful checkout whose request body carries
total 5 persists an order whose total_amount is 5, not 1000: the endpoint
stores the client-supplied total. -/
theorem C1_counterexample :
    validateCartTotal [prodP1] (toEntries reqTampered.cart) = ValidateResult.ok 1000 ∧
    (processCheckout envHappy reqTampered dbEmpty).1 = CheckoutResult.ok ∧
    (processCheckout envHappy reqTampered dbEmpty).2.orders.map
      (fun o => o.total_amount) = [5] ∧
    (5 : ℚ) ≠ 1000 := by
  refine ⟨?_, by decide, by decide, by norm_num⟩
  show validateLoop (dbQueryActive [prodP1]
    ((toEntries reqTampered.cart).map (fun item => item.productId)))
    (toEntries reqTampered.cart) 0 = ValidateResult.ok 1000
  norm_num [toEntries, reqTampered, itemP1, validateLoop, dbQueryActive,
    List.find?, List.filter, prodP1]

/-- C1 amended: for every checkout request that succeeds, the persisted
order's total_amount is exactly the total supplied by the client in the
request body; the endpoint performs no server-side recomputation. -/
theorem C1_total_is_client_supplied (env : CheckoutEnv) (req : CheckoutRequest)
    (db : DBState) (h : (processCheckout env req db).1 = .ok) :
    (processCheckout env req db).2.orders.map (fun o => o.total_amount) =
      db.orders.map (fun o => o.total_amount) ++ [req.total] := by
  unfold processCheckout insertOrderStep at h ⊢
  by_cases hpay : env.paystack.status = false ∨ env.paystack.data_status ≠ "success"
  · rw [if_pos hpay] at h
    simp at h
  · rw [if_neg hpay] at h ⊢
    cases hlist : env.listUsersError with
    | some m => simp [hlist] at h
    | none =>
        simp only [hlist] at h ⊢
        cases hfind : db.users.find? (fun u => u.email = req.form.email) with
        | some u =>
            simp only [hfind] at h ⊢
            cases horder : env.orderInsertError with
            | some m => simp [horder] at h
            | none => simp [horder]
        | none =>
            simp only [hfind] at h ⊢
            cases hcreate : env.createUserError with
            | some m => simp [hcreate] at h
            | none =>
                simp only [hcreate] at h ⊢
                cases hprofile : env.profileInsertError with
                | some m => simp [hprofile] at h
                | none =>
                    simp only [hprofile] at h ⊢
                    cases horder : env.orderInsertError with
                    | some m => simp [horder] at h
                    | none => simp [horder]

/-- Witness for the amended C1: the successful tampered request persists
its client-supplied total 5. -/
theorem C1_total_is_client_supplied_witness :
    (processCheckout envHappy reqTampered dbEmpty).2.orders.map
      (fun o => o.total_amount) = [(5 : ℚ)] := by
  have h := C1_total_is_client_supplied envHappy reqTampered dbEmpty (by decide)
  rw [h]
  decide

/-- C2 counterexample: when the order insert throws a database error, the
endpoint's 500 response body carries that error's text verbatim rather
than a generic message. -/
theorem C2_counterexample :
    envOrderFail.orderInsertError =
      some "duplicate key value violates unique constraint orders_pkey" ∧
    (processCheckout envOrderFail reqTampered dbEmpty).1 =
      CheckoutResult.serverError
        "duplicate key value violates unique constraint orders_pkey" := by
  exact ⟨by decide, by decide⟩

/-- C2 amended: every 500 response of the checkout endpoint carries,
verbatim, the message of the step that threw (user listing, user creation,
profile insert or order insert); the message is not replaced by a generic
one. -/
theorem C2_error_message_echoed (env : CheckoutEnv) (req : CheckoutRequest)
    (db : DBState) (m : String)
    (h : (processCheckout env req db).1 = .serverError m) :
    env.listUsersError = some m ∨ env.createUserError = some m ∨
      env.profileInsertError = some m ∨ env.orderInsertError = some m := by
  unfold processCheckout insertOrderStep at h
  by_cases hpay : env.paystack.status = false ∨ env.paystack.data_status ≠ "success"
  · rw [if_pos hpay] at h
    simp at h
  · rw [if_neg hpay] at h
    cases hlist : env.listUsersError with
    | some m0 =>
        simp [hlist] at h
        subst h
        exact Or.inl rfl
    | none =>
        simp only [hlist] at h
        cases hfind : db.users.find? (fun u => u.email = req.form.email) with
        | some u =>
            simp only [hfind] at h
            cases horder : env.orderInsertError with
            | some m0 =>
                simp [horder] at h
                subst h
                exact Or.inr (Or.inr (Or.inr rfl))
            | none => simp [horder] at h
        | none =>
            simp only [hfind] at h
            cases hcreate : env.createUserError with
            | some m0 =>
                simp [hcreate] at h
                subst h
                exact Or.inr (Or.inl rfl)
            | none =>
                simp only [hcreate] at h
                cases hprofile : env.profileInsertError with
                | some m0 =>
                    simp [hprofile] at h
                    subst h
                    exact Or.inr (Or.inr (Or.inl rfl))
                | none =>
                    simp only [hprofile] at h
                    cases horder : env.orderInsertError with
                    | some m0 =>
                        simp [horder] at h
                        subst h
                        exact Or.inr (Or.inr (Or.inr rfl))
                    | none => simp [horder] at h

/-- Witness for the amended C2: the duplicate-key message of the failed
order insert is the message of the 500 response. -/
theorem C2_error_message_echoed_witness :
    envOrderFail.listUsersError =
        some "duplicate key value violates unique constraint orders_pkey" ∨
      envOrderFail.createUserError =
        some "duplicate key value violates unique constraint orders_pkey" ∨
      envOrderFail.profileInsertError =
        some "duplicate key value violates unique constraint orders_pkey" ∨
      envOrderFail.orderInsertError =
        some "duplicate key value violates unique constraint orders_pkey" :=
  C2_error_message_echoed envOrderFail reqTampered dbEmpty
    "duplicate key value violates unique constraint orders_pkey" (by decide)

/-- C8: once the required fields are filled and the validation endpoint has
answered with a validated total, the submission is blocked with the
mismatch alert whenever that total differs from the locally held total by
more than 0.01, and the payment popup opens (charging the rounded kobo
amount) exactly when the two totals agree within 0.01. -/
theorem C8_mismatch_blocks_popup (products : List ProductRow)
    (form : CheckoutForm) (cart : List CartItem) (v : ℚ)
    (hname : ¬ jsTrim form.name = "")
    (hemail : ¬ jsTrim form.email = "")
    (hphone : ¬ jsTrim form.phone = "")
    (hval : validateCartTotal products (toEntries cart) = .ok v) :
    (|v - totalOrder cart| > 1 / 100 →
      handleSubmit products form cart = .totalMismatch) ∧
    (|v - totalOrder cart| ≤ 1 / 100 →
      handleSubmit products form cart =
        .openPaymentPopup (round (totalOrder cart * 100))) := by
  unfold handleSubmit
  rw [if_neg (by simp [hname, hemail, hphone])]
  rw [hval]
  constructor
  · intro hgt
    show (if |v - totalOrder cart| > 1 / 100 then SubmitOutcome.totalMismatch
      else SubmitOutcome.openPaymentPopup (round (totalOrder cart * 100))) =
      SubmitOutcome.totalMismatch
    rw [if_pos hgt]
  · intro hle
    show (if |v - totalOrder cart| > 1 / 100 then SubmitOutcome.totalMismatch
      else SubmitOutcome.openPaymentPopup (round (totalOrder cart * 100))) =
      SubmitOutcome.openPaymentPopup (round (totalOrder cart * 100))
    rw [if_neg (not_lt.mpr hle)]

/-- Witness for C8: with the authoritative price 500 and a cart holding a
stale price 499 over quantity 2, the validated total 1000 differs from the
local total 998 by more than 0.01 and the submission ends in the mismatch
alert, not the popup. -/
theorem C8_mismatch_blocks_popup_witness :
    handleSubmit [prodP1] formJane [itemTampered] = SubmitOutcome.totalMismatch := by
  have h := (C8_mismatch_blocks_popup [prodP1] formJane [itemTampered] 1000
    (by decide) (by decide) (by decide) ?hv).1 ?habs
  · exact h
  case hv =>
    show validateLoop (dbQueryActive [prodP1]
      ((toEntries [itemTampered]).map (fun item => item.productId)))
      (toEntries [itemTampered]) 0 = ValidateResult.ok 1000
    norm_num [toEntries, itemTampered, validateLoop, dbQueryActive,
      List.find?, List.filter, prodP1]
  case habs =>
    show |(1000 : ℚ) - totalOrder [itemTampered]| > 1 / 100
    norm_num [totalOrder, itemTampered]

/-- C9: the upload endpoint rejects a missing file, a MIME type outside
the allowed set, and a size above 5 MiB, each with a 400 issued before any
network call; a file with an allowed type and size within the limit passes
validation and the transfer is attempted under the generated filename. -/
theorem C9_upload_validation (file : Option UploadedFile) (timestamp : ℕ)
    (random : String) :
    (file = none →
      uploadImagePOST file timestamp random = .reject400 "No file provided") ∧
    (∀ f : UploadedFile, file = some f →
      f.mimeType ∉ allowedTypes →
      uploadImagePOST file timestamp random =
        .reject400 "Invalid file type. Only JPEG, PNG, WebP, and GIF are allowed") ∧
    (∀ f : UploadedFile, file = some f →
      f.mimeType ∈ allowedTypes →
      f.size > 5 * 1024 * 1024 →
      uploadImagePOST file timestamp random =
        .reject400 "File size exceeds 5MB limit") ∧
    (∀ f : UploadedFile, file = some f →
      f.mimeType ∈ allowedTypes →
      f.size ≤ 5 * 1024 * 1024 →
      uploadImagePOST file timestamp random =
        .attemptTransfer
          ("img_" ++ toString timestamp ++ "_" ++ random ++ "." ++
            fileExtension f.name)) := by
  refine ⟨?_, ?_, ?_, ?_⟩
  · intro h
    subst h
    rfl
  · intro f hf ht
    subst hf
    simp [uploadImagePOST, ht]
  · intro f hf ht hs
    subst hf
    simp [uploadImagePOST, ht, hs]
  · intro f hf ht hs
    subst hf
    simp [uploadImagePOST, ht, not_lt.mpr hs]

/-- Witness for C9: a request with no file is rejected with 400 before any
transfer is attempted. -/
theorem C9_upload_validation_witness :
    uploadImagePOST none 17 "abc123" = UploadOutcome.reject400 "No file provided" :=
  (C9_upload_validation none 17 "abc123").1 rfl

/-- Witness for C4: a payment reported failed creates no order, account or
profile. -/
theorem C4_payment_failure_aborts_witness :
    processCheckout envFailedPayment reqTampered dbEmpty =
      (CheckoutResult.badRequest "Payment verification failed", dbEmpty) :=
  C4_payment_failure_aborts envFailedPayment reqTampered dbEmpty (by decide)
